import Mathlib

/-!
Verification development for the area-learning session core
(`area-description-jni-example/app/src/main/jni/area_learning_app.cc`).

The C++ core is shallowly embedded: the external Tango service (the
"backing store") is modelled by explicit oracle parameters describing the
outcome of each store primitive, machine side effects become explicit
state passing, and lock-scoped control flow is modelled as traces of
atomic actions.  Strings are Lean `String`s; C `NULL` / uninitialized
`char*` outputs are modelled as `Option.none`.
-/

namespace TangoAreaLearning

/-! ## SaveAdf (`AreaLearningApp::SaveAdf`)

`TangoService_saveAreaDescription` either succeeds and fills in a UUID or
fails with an error code; the oracle `SaveOutcome` describes which.
`saveCalls` counts invocations of the store save primitive. -/

/-- Outcome of one call to `TangoService_saveAreaDescription`. -/
inductive SaveOutcome where
| success (uuid : String)
| failure (code : Int)
deriving DecidableEq

/-- Result of `SaveAdf`: the returned string plus how many times the
store's save primitive was invoked. -/
structure SaveAdfResult where
adf_uuid_string : String
saveCalls : Nat
deriving DecidableEq

/-- Embedding of `AreaLearningApp::SaveAdf` (area_learning_app.cc:194-210).
If `pose_data_.IsRelocalized()` is false the function returns the
still-empty `adf_uuid_string` without calling the store.  Otherwise it
calls `TangoService_saveAreaDescription` once; on `TANGO_SUCCESS` it
returns the UUID as a string, otherwise it returns the empty string. -/
def SaveAdf (isRelocalized : Bool) (store : SaveOutcome) : SaveAdfResult :=
if isRelocalized = false then
  { adf_uuid_string := "", saveCalls := 0 }
else
  match store with
  | .success uuid => { adf_uuid_string := uuid, saveCalls := 1 }
  | .failure _ => { adf_uuid_string := "", saveCalls := 1 }

/-! ## PoseData and the relocalization flag

Only `area_learning_app.cc` is in the sources; the `PoseData` class that
implements `UpdatePose` / `IsRelocalized` / `ResetPoseData` is declared
in a header and implemented elsewhere in the repository. -/

/-- Coordinate frames used by the three tracked relationships. -/
inductive CoordinateFrame where
| startOfService
| areaDescription
| device
deriving DecidableEq

/-- Pose status codes. -/
inductive PoseStatus where
| initializing
| valid
| invalid
| unknown
deriving DecidableEq

/-- A pose sample delivered by the tracking service: a (base, target)
frame pair plus a validity status (the transform itself does not matter
for the relocalization flag). -/
structure TangoPoseData where
baseFrame : CoordinateFrame
targetFrame : CoordinateFrame
status : PoseStatus
deriving DecidableEq

/-- State of the pose store that matters here: the derived
relocalization flag. -/
structure PoseData where
is_relocalized : Bool
deriving DecidableEq

/-- Whether a pose sample is a valid (area-description → device) pose. -/
def isValidAdfDevicePose (p : TangoPoseData) : Bool :=
p.baseFrame = CoordinateFrame.areaDescription
  && p.targetFrame = CoordinateFrame.device
  && p.status = PoseStatus.valid

/-- Modelled from the spec: `PoseData::UpdatePose` (the PoseData
implementation file is not among the sources).  Per the spec, the
relocalization flag "transitions to true the moment a pose update for
(area-description → device) carries valid status; never reverts within a
session". -/
def PoseData.UpdatePose (pd : PoseData) (p : TangoPoseData) : PoseData :=
if isValidAdfDevicePose p then { pd with is_relocalized := true } else pd

/-- Modelled from the spec: `PoseData::ResetPoseData` "clears all samples
and the relocalization flag; used on session teardown". -/
def PoseData.ResetPoseData (_pd : PoseData) : PoseData :=
{ is_relocalized := false }

/-- Modelled from the spec: `PoseData::IsRelocalized` returns the derived
flag. -/
def PoseData.IsRelocalized (pd : PoseData) : Bool :=
pd.is_relocalized

/-! ## Event ingestion and save-progress reporting

`AreaLearningApp::onTangoEventAvailable` (area_learning_app.cc:57-65)
stores the event and, when `event->type == TANGO_EVENT_AREA_LEARNING`
and `event->event_key` equals `"AreaDescriptionSaveProgress"`, calls
`OnAdfSavingProgressChanged(std::atof(event->event_value) * 100)`.

`std::atof` is embedded with exact decimal arithmetic: the parsed value
is kept as `num / 10 ^ pow10` with integer `num`, which is exact for the
decimal literals the service emits (no IEEE-754 rounding is modelled).
The implicit C conversion of the `double` argument to the `int`
parameter truncates toward zero, which is `Int.tdiv`. -/

/-- Event types of the tracking service (`TangoEventType`). -/
inductive TangoEventType where
| unknownEvent
| general
| fisheyeCamera
| colorCamera
| imu
| featureTracking
| areaLearning
deriving DecidableEq

/-- An event notification: (type, key, value). -/
structure TangoEvent where
type : TangoEventType
event_key : String
event_value : String
deriving DecidableEq

/-- An exact decimal value `num / 10 ^ pow10`, the embedding of the
`double` produced by `std::atof`. -/
structure DecValue where
num : Int
pow10 : Nat
deriving DecidableEq

/-- Numeric value of a digit character. -/
def digitToNat (c : Char) : Nat :=
c.toNat - 48

/-- Consume a run of decimal digits, returning the accumulated value,
the number of digits consumed, and the rest of the input. -/
def parseDigitsAux : List Char → Nat → Nat → Nat × Nat × List Char
| [], acc, n => (acc, n, [])
| c :: cs, acc, n =>
  if c.isDigit then parseDigitsAux cs (acc * 10 + digitToNat c) (n + 1)
  else (acc, n, c :: cs)

/-- Parse a digit run from the front of the input. -/
def parseDigits (l : List Char) : Nat × Nat × List Char :=
parseDigitsAux l 0 0

/-- Skip the leading whitespace accepted by `strtod` (C `isspace`). -/
def skipSpace : List Char → List Char
| [] => []
| c :: cs =>
  if c = ' ' ∨ c = '\t' ∨ c = '\n' ∨ c = '\x0b' ∨ c = '\x0c' ∨ c = '\r' then
    skipSpace cs
  else c :: cs

/-- Parse an optional sign, returning whether the value is negated. -/
def parseSign : List Char → Bool × List Char
| [] => (false, [])
| c :: cs =>
  if c = '-' then (true, cs)
  else if c = '+' then (false, cs)
  else (false, c :: cs)

/-- Parse an optional exponent part (`e`/`E`, optional sign, digits).
As in `strtod`, the exponent counts only if at least one digit follows;
otherwise the value is left unscaled (exponent 0). -/
def parseExponent : List Char → Int
| [] => 0
| c :: cs =>
  if c = 'e' ∨ c = 'E' then
    let s := parseSign cs
    let d := parseDigits s.2
    if d.2.1 = 0 then 0
    else if s.1 then -(d.1 : Int) else (d.1 : Int)
  else 0

/-- Embedding of `std::atof` on the decimal forms it accepts: optional
whitespace, optional sign, digits, optional fraction, optional exponent.
When no digit at all is consumed (e.g. `"oops"`) the result is `0.0`,
exactly as `atof` returns 0.0 on no conversion.  (Hexadecimal floats,
`inf` and `nan` inputs are outside the event-value formats considered.) -/
def atofValue (s : String) : DecValue :=
let l0 := skipSpace s.toList
let sg := parseSign l0
let ip := parseDigits sg.2
let fp :=
  match ip.2.2 with
  | '.' :: r => parseDigits r
  | l => (0, 0, l)
if ip.2.1 = 0 ∧ fp.2.1 = 0 then { num := 0, pow10 := 0 }
else
  let mant : Nat := ip.1 * 10 ^ fp.2.1 + fp.1
  let sm : Int := if sg.1 then -(mant : Int) else (mant : Int)
  let e := parseExponent fp.2.2
  if 0 ≤ e then { num := sm * 10 ^ e.toNat, pow10 := fp.2.1 }
  else { num := sm, pow10 := fp.2.1 + (-e).toNat }

/-- The integer percent handed to `OnAdfSavingProgressChanged`:
`std::atof(value) * 100` converted to `int` (C truncation toward zero). -/
def savedProgressPercent (value : String) : Int :=
Int.tdiv ((atofValue value).num * 100) ((10 : Int) ^ (atofValue value).pow10)

/-- Observable effect of `AreaLearningApp::onTangoEventAvailable` on the
progress reporter: `some p` when `OnAdfSavingProgressChanged(p)` is
invoked, `none` when it is not. -/
def onTangoEventReport (e : TangoEvent) : Option Int :=
if e.type = TangoEventType.areaLearning ∧ e.event_key = "AreaDescriptionSaveProgress" then
  some (savedProgressPercent e.event_value)
else none

/-! ## UUID-list parsing (`AreaLearningApp::GetAdfUuids`)

area_learning_app.cc:339-361: the comma-separated blob returned by
`TangoService_getAreaDescriptionUUIDList` is tokenized with
`strtok_r(uuid_list, ",", &saved_ptr)` in a loop, pushing each token.
`strtok_r` emits the maximal nonempty runs of non-delimiter characters,
i.e. it skips empty tokens.  `strtokAux` is that loop with the current
token as accumulator. -/

/-- The `strtok_r` loop of `GetAdfUuids`: `acc` is the token being
accumulated; a delimiter flushes a nonempty `acc`, end of input flushes
the final nonempty token. -/
def strtokAux (d : Char) : List Char → List Char → List (List Char)
| [], acc => if acc.isEmpty then [] else [acc]
| c :: cs, acc =>
  if c = d then
    if acc.isEmpty then strtokAux d cs [] else acc :: strtokAux d cs []
  else strtokAux d cs (acc ++ [c])

/-- Tokenization of a character list as performed by the `strtok_r`
loop. -/
def strtokSplit (d : Char) (l : List Char) : List (List Char) :=
strtokAux d l []

/-- Spec-side splitter: split on every occurrence of the delimiter,
keeping empty tokens.  Returns the first token and the remaining
tokens. -/
def splitAllP (d : Char) : List Char → List Char × List (List Char)
| [] => ([], [])
| c :: cs =>
  let r := splitAllP d cs
  if c = d then ([], r.1 :: r.2) else (c :: r.1, r.2)

/-- Spec-side splitter: all tokens, empty ones included ("splits
strictly on `,`"). -/
def splitAll (d : Char) (l : List Char) : List (List Char) :=
(splitAllP d l).1 :: (splitAllP d l).2

/-- Embedding of `AreaLearningApp::GetAdfUuids`.  The argument is the
blob produced by the store (`none` models `uuid_list == nullptr` after a
failed store call, in which case the guard skips parsing); an empty blob
(`uuid_list[0] == '\0'`) also yields no tokens.  The result is the list
of UUID strings pushed onto `adf_list`. -/
def GetAdfUuids (uuid_list : Option String) : List String :=
match uuid_list with
| none => []
| some blob =>
  if blob.toList.isEmpty then []
  else (strtokSplit ',' blob.toList).map String.mk

/-! ## Metadata operations

`TangoService_getAreaDescriptionMetadata` resolves a UUID to a metadata
handle, `TangoAreaDescriptionMetadata_get` / `_set` read and mutate the
in-memory handle, and `TangoService_saveAreaDescriptionMetadata`
persists the handle back.  The backing store is a map from UUID to an
association list of key/value pairs; `getOk`, `setOk`, `saveOk` are the
oracle outcomes of the fallible primitives.  A handle left uninitialized
by a failed fetch is `none`; a string returned through an output pointer
the store never set is also `none` (in C this is undefined behavior). -/

/-- Store primitives invoked by the metadata operations, in call
order. -/
inductive StoreCall where
| fetchHandle
| readKey
| writeKey
| persistHandle
deriving DecidableEq

/-- Oracle for the metadata operations: the persisted store contents and
the outcome of each fallible primitive. -/
structure MetaStoreEnv where
stored : String → List (String × String)
getOk : Bool
setOk : Bool
saveOk : Bool

/-- Look up a key in a metadata handle. -/
def assocGet (m : List (String × String)) (k : String) : Option String :=
match m with
| [] => none
| kv :: rest => if kv.1 = k then some kv.2 else assocGet rest k

/-- Write a key in a metadata handle. -/
def assocSet (m : List (String × String)) (k v : String) : List (String × String) :=
match m with
| [] => [(k, v)]
| kv :: rest => if kv.1 = k then (k, v) :: rest else kv :: assocSet rest k v

/-- Result of `GetAdfMetadataValue`: the returned string (`none` when
the `output` pointer was never set by the store, so `std::string(output)`
reads an uninitialized pointer) and the store primitives invoked. -/
structure GetMetaResult where
ret : Option String
calls : List StoreCall

/-- Embedding of `AreaLearningApp::GetAdfMetadataValue`
(area_learning_app.cc:212-234).  Both store calls are made
unconditionally: a failed fetch is logged (`LOGE`) but the function does
not return early, and a failed key read is logged but the function still
returns `std::string(output)`. -/
def GetAdfMetadataValue (env : MetaStoreEnv) (uuid key : String) : GetMetaResult :=
let metadata : Option (List (String × String)) :=
  if env.getOk then some (env.stored uuid) else none
let output : Option String := metadata.bind (fun m => assocGet m key)
{ ret := output, calls := [StoreCall.fetchHandle, StoreCall.readKey] }

/-- Result of `SetAdfMetadataValue`: the backing store after the call
and the store primitives invoked. -/
structure SetMetaResult where
stored : String → List (String × String)
calls : List StoreCall

/-- Embedding of `AreaLearningApp::SetAdfMetadataValue`
(area_learning_app.cc:236-256).  All three store calls are made
unconditionally; each failure is logged but none aborts the later
phases.  Only a successful `TangoService_saveAreaDescriptionMetadata`
changes the backing store (persisting a handle left uninitialized by a
failed fetch is undefined behavior in C; here it leaves the store
unchanged). -/
def SetAdfMetadataValue (env : MetaStoreEnv) (uuid key value : String) : SetMetaResult :=
let metadata0 : Option (List (String × String)) :=
  if env.getOk then some (env.stored uuid) else none
let metadata1 : Option (List (String × String)) :=
  if env.setOk then metadata0.map (fun m => assocSet m key value) else metadata0
let stored1 : String → List (String × String) :=
  if env.saveOk then
    match metadata1 with
    | some m => fun u => if u = uuid then m else env.stored u
    | none => env.stored
  else env.stored
{ stored := stored1, calls := [StoreCall.fetchHandle, StoreCall.writeKey, StoreCall.persistHandle] }

/-- Embedding of `AreaLearningApp::GetAllAdfUuids`
(area_learning_app.cc:258-272).  The argument is the blob produced by
`TangoService_getAreaDescriptionUUIDList` (`none` models a failed call
that leaves `uuid_list == nullptr`).  The function ends with
`return std::string(uuid_list)`, which on a null pointer is undefined
behavior; that outcome is `none`. -/
def GetAllAdfUuids (uuid_list : Option String) : Option String :=
match uuid_list with
| some blob => some blob
| none => none

/-! ## Lock-scope traces

The locking structure of the callbacks and accessors is embedded as a
trace of atomic actions per function.  A `std::lock_guard` acquires its
mutex at its declaration and releases it when its scope ends, so the
release action sits exactly where the guard's scope closes in the C++
source. -/

/-- The two mutexes of the session core. -/
inductive MutexId where
| poseMutex
| tangoEventMutex
deriving DecidableEq

/-- Atomic actions appearing in a function's trace. -/
inductive Action where
| acquire (m : MutexId)
| release (m : MutexId)
| updatePose
| updateEvent
| reportProgress (p : Int)
| readCurrentPose
| readIsRelocalized
| readPoseString
| readEventString
| storeCall
| renderScene
deriving DecidableEq

/-- Whether the mutex is held just before trace position `i` (more
acquisitions than releases among the first `i` actions). -/
def heldAt (m : MutexId) (tr : List Action) (i : Nat) : Bool :=
(tr.take i).countP (fun a => decide (a = Action.acquire m))
  > (tr.take i).countP (fun a => decide (a = Action.release m))

/-- Discriminator for progress-report actions. -/
def isReportAction : Action → Bool
| .reportProgress _ => true
| _ => false

/-- Trace of `AreaLearningApp::onPoseAvailable`
(area_learning_app.cc:52-55): the pose update happens inside the
`lock_guard` on `pose_mutex_`. -/
def onPoseAvailableTrace : List Action :=
[Action.acquire MutexId.poseMutex, Action.updatePose, Action.release MutexId.poseMutex]

/-- Trace of `AreaLearningApp::onTangoEventAvailable`
(area_learning_app.cc:57-65): the `lock_guard` on `tango_event_mutex_`
spans the whole function body, so the conditional
`OnAdfSavingProgressChanged` call happens before the guard releases the
mutex at the end of the function scope. -/
def onTangoEventAvailableTrace (e : TangoEvent) : List Action :=
[Action.acquire MutexId.tangoEventMutex, Action.updateEvent]
  ++ (if e.type = TangoEventType.areaLearning ∧ e.event_key = "AreaDescriptionSaveProgress" then
        [Action.reportProgress (savedProgressPercent e.event_value)]
      else [])
  ++ [Action.release MutexId.tangoEventMutex]

/-- Trace of `AreaLearningApp::Render` (area_learning_app.cc:284-292):
`cur_pose` is copied inside a block-scoped `lock_guard` on
`pose_mutex_`; the block then closes, and `pose_data_.IsRelocalized()`
is evaluated outside it, after the release. -/
def renderTrace : List Action :=
[Action.acquire MutexId.poseMutex, Action.readCurrentPose,
 Action.release MutexId.poseMutex, Action.readIsRelocalized, Action.renderScene]

/-- Trace of `AreaLearningApp::IsRelocalized`
(area_learning_app.cc:299-302). -/
def isRelocalizedTrace : List Action :=
[Action.acquire MutexId.poseMutex, Action.readIsRelocalized, Action.release MutexId.poseMutex]

/-- Trace of `AreaLearningApp::GetStartServiceTDeviceString`
(area_learning_app.cc:304-307). -/
def getStartServiceTDeviceStringTrace : List Action :=
[Action.acquire MutexId.poseMutex, Action.readPoseString, Action.release MutexId.poseMutex]

/-- Trace of `AreaLearningApp::GetAdfTDeviceString`
(area_learning_app.cc:309-312). -/
def getAdfTDeviceStringTrace : List Action :=
[Action.acquire MutexId.poseMutex, Action.readPoseString, Action.release MutexId.poseMutex]

/-- Trace of `AreaLearningApp::GetAdfTStartServiceString`
(area_learning_app.cc:314-317). -/
def getAdfTStartServiceStringTrace : List Action :=
[Action.acquire MutexId.poseMutex, Action.readPoseString, Action.release MutexId.poseMutex]

/-- Trace of `AreaLearningApp::GetEventString`
(area_learning_app.cc:319-322). -/
def getEventStringTrace : List Action :=
[Action.acquire MutexId.tangoEventMutex, Action.readEventString,
 Action.release MutexId.tangoEventMutex]

/-- Every occurrence of the given action in the trace happens while the
given mutex is held. -/
def actionUnderLock (act : Action) (m : MutexId) (tr : List Action) : Prop :=
∀ i, i < tr.length → tr.getD i Action.updateEvent = act → heldAt m tr i = true

/-- Every progress-report action in the trace happens only after the
given mutex has been released (i.e. while it is not held). -/
def reportOnlyAfterRelease (m : MutexId) (tr : List Action) : Prop :=
∀ i, i < tr.length → isReportAction (tr.getD i Action.updateEvent) = true → heldAt m tr i = false

/-! ## Concrete oracle instances used in counterexamples and witnesses -/

/-- A store oracle whose handle-fetch primitive fails and whose other
primitives succeed. -/
def fetchFailEnv : MetaStoreEnv :=
{ stored := fun _ => [], getOk := false, setOk := true, saveOk := true }

/-- A store oracle whose persist primitive fails and whose other
primitives succeed; `uuid-1` has metadata `name ↦ hall`. -/
def persistFailEnv : MetaStoreEnv :=
{ stored := fun _ => [("name", "hall")], getOk := true, setOk := true, saveOk := false }

/-- A store oracle in which every primitive succeeds; `uuid-1` has
metadata `name ↦ kitchen`. -/
def allOkEnv : MetaStoreEnv :=
{ stored := fun _ => [("name", "kitchen")], getOk := true, setOk := true, saveOk := true }

/-- A concrete area-learning save-progress event with value `"0.37"`. -/
def saveProgressEvent37 : TangoEvent :=
{ type := TangoEventType.areaLearning,
  event_key := "AreaDescriptionSaveProgress",
  event_value := "0.37" }

/-! ## Theorems -/

/-- C1: when `IsRelocalized()` is false, `SaveAdf` returns its failure
result (the still-empty UUID string) without invoking
`TangoService_saveAreaDescription`; when it is true, `SaveAdf` invokes
the store's save primitive exactly once and returns the new UUID on
success, or the empty-string failure result on a store error. -/
theorem saveAdf_precondition_gates_store (store : SaveOutcome) (u : String) (c : Int) :
  (SaveAdf false store).saveCalls = 0
  ∧ (SaveAdf false store).adf_uuid_string = ""
  ∧ (SaveAdf true store).saveCalls = 1
  ∧ (SaveAdf true (SaveOutcome.success u)).adf_uuid_string = u
  ∧ (SaveAdf true (SaveOutcome.failure c)).adf_uuid_string = "" := by
refine ⟨rfl, rfl, ?_, ?_, ?_⟩ <;> cases store <;> rfl

/-- C10: `SaveAdf` returns the empty string both when the
relocalization precondition fails and when the store rejects the save,
so those two failures are indistinguishable from the return value; a
non-empty return happens only on a successful store save and equals the
store-issued UUID. -/
theorem saveAdf_failure_returns_indistinguishable (isRelocalized : Bool) (store : SaveOutcome) (c : Int) :
  (SaveAdf false store).adf_uuid_string = ""
  ∧ (SaveAdf true (SaveOutcome.failure c)).adf_uuid_string = ""
  ∧ ((SaveAdf isRelocalized store).adf_uuid_string ≠ "" →
      isRelocalized = true
        ∧ store = SaveOutcome.success ((SaveAdf isRelocalized store).adf_uuid_string)) := by
refine ⟨rfl, rfl, ?_⟩
cases isRelocalized <;> cases store <;> simp [SaveAdf]

/-- Witness for C10 at a successful save of UUID `"u"`. -/
theorem saveAdf_failure_returns_indistinguishable_witness :
  true = true
    ∧ SaveOutcome.success "u"
        = SaveOutcome.success ((SaveAdf true (SaveOutcome.success "u")).adf_uuid_string) :=
(saveAdf_failure_returns_indistinguishable true (SaveOutcome.success "u") 0).2.2 (by decide)

/-- C8: after any sequence of pose updates, the relocalization flag is
set exactly when it was set initially or some update in the sequence was
a valid (area-description → device) pose — so it is false before the
first such pose, becomes true at it, and stays true through later
invalid poses; only `ResetPoseData` clears it. -/
theorem relocalized_flag_monotone (init : PoseData) (poses : List TangoPoseData) (pd : PoseData) :
  (poses.foldl PoseData.UpdatePose init).is_relocalized
      = (init.is_relocalized || poses.any isValidAdfDevicePose)
  ∧ (PoseData.ResetPoseData pd).is_relocalized = false := by
refine ⟨?_, rfl⟩
induction poses generalizing init with
| nil => simp
| cons p ps ih =>
  simp only [List.foldl_cons, List.any_cons, ih]
  unfold PoseData.UpdatePose
  by_cases h : isValidAdfDevicePose p <;> simp [h]

/-- C9: a failed `TangoService_getAreaDescriptionUUIDList` call leaves
`uuid_list` null, and `GetAllAdfUuids` then reaches
`std::string(uuid_list)` on a null pointer (modelled `none`); likewise a
failed metadata fetch leaves `GetAdfMetadataValue` returning a string
built from an unset output pointer.  Neither failure is turned into a
typed result. -/
theorem storeFailure_reaches_null_string :
  GetAllAdfUuids none = none
  ∧ (GetAdfMetadataValue fetchFailEnv "uuid-1" "name").ret = none :=
⟨rfl, rfl⟩

/-- C2 counterexample: with a failing handle-fetch oracle, the mutate
phase (`TangoAreaDescriptionMetadata_set`) and the persist phase are
still attempted — the claim that an earlier-phase failure prevents later
phases is false of the code. -/
theorem setAdfMetadataValue_no_abort_counterexample :
  fetchFailEnv.getOk = false
  ∧ StoreCall.writeKey ∈ (SetAdfMetadataValue fetchFailEnv "uuid-1" "name" "kitchen").calls
  ∧ StoreCall.persistHandle ∈ (SetAdfMetadataValue fetchFailEnv "uuid-1" "name" "kitchen").calls := by
refine ⟨rfl, ?_, ?_⟩ <;> simp [SetAdfMetadataValue]

/-- C2 (amended): `SetAdfMetadataValue` attempts all three store
primitives unconditionally — a failure of the handle-fetch or mutate
phase is logged but does not prevent the later phases — and a call whose
persist phase fails leaves the backing store unchanged from before the
call. -/
theorem setAdfMetadataValue_phases (env : MetaStoreEnv) (uuid key value : String) :
  (SetAdfMetadataValue env uuid key value).calls
      = [StoreCall.fetchHandle, StoreCall.writeKey, StoreCall.persistHandle]
  ∧ (env.saveOk = false → (SetAdfMetadataValue env uuid key value).stored = env.stored) := by
refine ⟨rfl, fun h => ?_⟩
simp [SetAdfMetadataValue, h]

/-- Witness for C2 (amended) on the failing-persist oracle. -/
theorem setAdfMetadataValue_phases_witness :
  (SetAdfMetadataValue persistFailEnv "uuid-1" "name" "kitchen").calls
      = [StoreCall.fetchHandle, StoreCall.writeKey, StoreCall.persistHandle]
  ∧ (SetAdfMetadataValue persistFailEnv "uuid-1" "name" "kitchen").stored = persistFailEnv.stored :=
⟨(setAdfMetadataValue_phases persistFailEnv "uuid-1" "name" "kitchen").1,
 (setAdfMetadataValue_phases persistFailEnv "uuid-1" "name" "kitchen").2 rfl⟩

/-- C3 counterexample: with a failing handle-fetch oracle, the key-read
phase (`TangoAreaDescriptionMetadata_get`) is still attempted, and the
returned value models a string built from an unset output pointer rather
than a typed unknown-map failure. -/
theorem getAdfMetadataValue_no_abort_counterexample :
  fetchFailEnv.getOk = false
  ∧ StoreCall.readKey ∈ (GetAdfMetadataValue fetchFailEnv "uuid-1" "name").calls := by
refine ⟨rfl, ?_⟩
simp [GetAdfMetadataValue]

/-- C3 (amended): `GetAdfMetadataValue` attempts both store primitives
unconditionally — a handle-fetch failure is logged but does not prevent
the key read; the value string is returned exactly when the fetch
succeeds and the key is present, and otherwise the function returns a
string built from an unset output pointer (no typed failure result). -/
theorem getAdfMetadataValue_phases (env : MetaStoreEnv) (uuid key : String) :
  (GetAdfMetadataValue env uuid key).calls = [StoreCall.fetchHandle, StoreCall.readKey]
  ∧ (env.getOk = true →
      (GetAdfMetadataValue env uuid key).ret = assocGet (env.stored uuid) key)
  ∧ (env.getOk = false → (GetAdfMetadataValue env uuid key).ret = none) := by
refine ⟨rfl, fun h => ?_, fun h => ?_⟩ <;> simp [GetAdfMetadataValue, h]

/-- Witness for C3 (amended) on the all-success oracle. -/
theorem getAdfMetadataValue_phases_witness :
  (GetAdfMetadataValue allOkEnv "uuid-1" "name").ret
      = assocGet (allOkEnv.stored "uuid-1") "name" :=
(getAdfMetadataValue_phases allOkEnv "uuid-1" "name").2.1 rfl

/-- The `strtok_r` loop with accumulator `acc` produces exactly the
split-on-delimiter tokens (the pending `acc` prefixed onto the first
one) with the empty tokens filtered out. -/
theorem strtokAux_eq_filter (d : Char) (l : List Char) :
  ∀ acc : List Char,
    strtokAux d l acc
      = ((acc ++ (splitAllP d l).1) :: (splitAllP d l).2).filter (fun t => !t.isEmpty) := by
induction l with
| nil =>
  intro acc
  by_cases h : acc.isEmpty
  · simp [strtokAux, splitAllP, List.filter, h]
  · simp [strtokAux, splitAllP, List.filter, h]
| cons c cs ih =>
  intro acc
  by_cases hc : c = d
  · by_cases ha : acc.isEmpty
    · simp [strtokAux, splitAllP, hc, ha, ih [], List.filter]
    · simp [strtokAux, splitAllP, hc, ha, ih [], List.filter]
  · have step : strtokAux d (c :: cs) acc = strtokAux d cs (acc ++ [c]) := by
      simp [strtokAux, hc]
    have hsp : splitAllP d (c :: cs) = (c :: (splitAllP d cs).1, (splitAllP d cs).2) := by
      simp [splitAllP, hc]
    rw [step, ih (acc ++ [c]), hsp]
    simp [List.append_assoc]

/-- C5: `GetAdfUuids` yields exactly the comma-split tokens of the blob
in blob order with empty tokens discarded; in particular the empty blob
yields the empty list (not an error), `"a,b,c"` yields `["a","b","c"]`,
and `"a,b,"` with a trailing separator yields `["a","b"]`. -/
theorem getAdfUuids_splits_dropping_empty :
  (∀ blob : String,
    GetAdfUuids (some blob)
      = ((splitAll ',' blob.toList).filter (fun t => !t.isEmpty)).map String.mk)
  ∧ GetAdfUuids (some "") = []
  ∧ GetAdfUuids (some "a,b,c") = ["a", "b", "c"]
  ∧ GetAdfUuids (some "a,b,") = ["a", "b"] := by
refine ⟨?_, by decide, by decide, by decide⟩
intro blob
have key : strtokSplit ',' blob.toList
    = (splitAll ',' blob.toList).filter (fun t => !t.isEmpty) := by
  simpa [strtokSplit, splitAll] using strtokAux_eq_filter ',' blob.toList []
by_cases h : blob.toList.isEmpty
· have hl : blob.toList = [] := by simpa using h
  simp only [GetAdfUuids]
  rw [if_pos h, hl]
  rfl
· simp only [GetAdfUuids]
  rw [if_neg h, key]

/-- C4: `onTangoEventAvailable` invokes the progress reporter exactly
when the event type is area-learning and the key is the save-progress
key (`"AreaDescriptionSaveProgress"`); the value is parsed as a decimal
ratio and scaled by 100 with truncation, so `"0.37"` reports 37 and the
non-numeric `"oops"` parses to 0 and reports 0 without any error;
whenever the parsed value is a ratio in [0, 1] the reported percent lies
in [0, 100]. -/
theorem onTangoEventReport_progress :
  (∀ e : TangoEvent,
    (onTangoEventReport e).isSome = true
      ↔ (e.type = TangoEventType.areaLearning
          ∧ e.event_key = "AreaDescriptionSaveProgress"))
  ∧ onTangoEventReport saveProgressEvent37 = some 37
  ∧ onTangoEventReport
      { type := TangoEventType.areaLearning,
        event_key := "AreaDescriptionSaveProgress",
        event_value := "oops" } = some 0
  ∧ (∀ value : String,
      0 ≤ (atofValue value).num →
      (atofValue value).num ≤ (10 : Int) ^ (atofValue value).pow10 →
      0 ≤ savedProgressPercent value ∧ savedProgressPercent value ≤ 100) := by
refine ⟨?_, by decide, by decide, ?_⟩
· intro e
  unfold onTangoEventReport
  by_cases h : e.type = TangoEventType.areaLearning ∧ e.event_key = "AreaDescriptionSaveProgress"
  · simp [h]
  · simp [h]
· intro value h0 h1
  set n := (atofValue value).num with hn
  set k := (atofValue value).pow10 with hk
  have hD : (0 : Int) < (10 : Int) ^ k := pow_pos (by norm_num) k
  have hmul : 0 ≤ n * 100 := by positivity
  constructor
  · exact Int.tdiv_nonneg hmul (le_of_lt hD)
  · have heq : Int.tdiv (n * 100) ((10 : Int) ^ k) = (n * 100) / ((10 : Int) ^ k) :=
      Int.tdiv_eq_ediv hmul (le_of_lt hD)
    have hle : n * 100 ≤ (10 : Int) ^ k * 100 := by nlinarith
    have hdivle : (n * 100) / ((10 : Int) ^ k) ≤ ((10 : Int) ^ k * 100) / ((10 : Int) ^ k) :=
      Int.ediv_le_ediv hD hle
    have hcancel : ((10 : Int) ^ k * 100) / ((10 : Int) ^ k) = 100 :=
      Int.mul_ediv_cancel_left 100 (ne_of_gt hD)
    calc savedProgressPercent value
        = Int.tdiv (n * 100) ((10 : Int) ^ k) := rfl
      _ = (n * 100) / ((10 : Int) ^ k) := heq
      _ ≤ ((10 : Int) ^ k * 100) / ((10 : Int) ^ k) := hdivle
      _ = 100 := hcancel

/-- Witness for C4 at the `"0.37"` event value. -/
theorem onTangoEventReport_progress_witness :
  0 ≤ savedProgressPercent "0.37" ∧ savedProgressPercent "0.37" ≤ 100 :=
onTangoEventReport_progress.2.2.2 "0.37" (by decide) (by decide)

/-- C6 counterexample: for the concrete `"0.37"` save-progress event the
ingestion trace issues the progress-report call while the event mutex is
still held (the `lock_guard` releases only at the end of the callback),
so the report is not issued after the lock release. -/
theorem eventLock_report_counterexample :
  ¬ reportOnlyAfterRelease MutexId.tangoEventMutex
      (onTangoEventAvailableTrace saveProgressEvent37) := by
unfold reportOnlyAfterRelease
decide

/-- C6 (amended): in every execution of event ingestion, the progress
report call is issued while the event-store exclusion lock is still
held; the `lock_guard` releases the mutex only at the end of the
callback scope, after the report call. -/
theorem eventLock_held_across_report (e : TangoEvent) (i : Nat)
    (h : i < (onTangoEventAvailableTrace e).length)
    (hr : isReportAction ((onTangoEventAvailableTrace e).getD i Action.updateEvent) = true) :
  heldAt MutexId.tangoEventMutex (onTangoEventAvailableTrace e) i = true := by
by_cases hc : e.type = TangoEventType.areaLearning ∧ e.event_key = "AreaDescriptionSaveProgress"
· have htr : onTangoEventAvailableTrace e
      = [Action.acquire MutexId.tangoEventMutex, Action.updateEvent,
         Action.reportProgress (savedProgressPercent e.event_value),
         Action.release MutexId.tangoEventMutex] := by
    unfold onTangoEventAvailableTrace
    rw [if_pos hc]
    rfl
  rw [htr] at h hr ⊢
  simp only [List.length_cons, List.length_nil] at h
  interval_cases i
  · exact absurd hr (by simp [isReportAction])
  · exact absurd hr (by simp [isReportAction])
  · rfl
  · exact absurd hr (by simp [isReportAction])
· have htr : onTangoEventAvailableTrace e
      = [Action.acquire MutexId.tangoEventMutex, Action.updateEvent,
         Action.release MutexId.tangoEventMutex] := by
    unfold onTangoEventAvailableTrace
    rw [if_neg hc]
    rfl
  rw [htr] at h hr ⊢
  simp only [List.length_cons, List.length_nil] at h
  interval_cases i
  · exact absurd hr (by decide)
  · exact absurd hr (by decide)
  · exact absurd hr (by decide)

/-- Witness for C6 (amended) at the `"0.37"` save-progress event, whose
report action sits at trace position 2. -/
theorem eventLock_held_across_report_witness :
  heldAt MutexId.tangoEventMutex (onTangoEventAvailableTrace saveProgressEvent37) 2 = true :=
eventLock_held_across_report saveProgressEvent37 2 (by decide) (by decide)

/-- C7 counterexample: on the render path the relocalization flag is
read after the block-scoped `lock_guard` on the pose mutex has been
destroyed, so that read does not occur under the pose lock. -/
theorem render_reloc_read_counterexample :
  ¬ actionUnderLock Action.readIsRelocalized MutexId.poseMutex renderTrace := by
unfold actionUnderLock
decide

/-- C7 (amended): `IsRelocalized`, the pose formatting accessors and
`GetEventString` each read under the same mutex as the corresponding
writer, the pose copy on the render path is made under the pose lock,
and no store call occurs in any of these lock-scoped traces; however the
relocalization flag read on the render path happens after the pose lock
has been released (trace position 3, where the pose mutex is no longer
held). -/
theorem reads_lock_discipline :
  actionUnderLock Action.readIsRelocalized MutexId.poseMutex isRelocalizedTrace
  ∧ actionUnderLock Action.readPoseString MutexId.poseMutex getStartServiceTDeviceStringTrace
  ∧ actionUnderLock Action.readPoseString MutexId.poseMutex getAdfTDeviceStringTrace
  ∧ actionUnderLock Action.readPoseString MutexId.poseMutex getAdfTStartServiceStringTrace
  ∧ actionUnderLock Action.readEventString MutexId.tangoEventMutex getEventStringTrace
  ∧ actionUnderLock Action.readCurrentPose MutexId.poseMutex renderTrace
  ∧ actionUnderLock Action.updatePose MutexId.poseMutex onPoseAvailableTrace
  ∧ Action.storeCall ∉ renderTrace
  ∧ Action.storeCall ∉ isRelocalizedTrace
  ∧ Action.storeCall ∉ getStartServiceTDeviceStringTrace
  ∧ Action.storeCall ∉ getAdfTDeviceStringTrace
  ∧ Action.storeCall ∉ getAdfTStartServiceStringTrace
  ∧ Action.storeCall ∉ getEventStringTrace
  ∧ Action.storeCall ∉ onPoseAvailableTrace
  ∧ renderTrace.getD 3 Action.updateEvent = Action.readIsRelocalized
  ∧ heldAt MutexId.poseMutex renderTrace 3 = false := by
unfold actionUnderLock
decide

end TangoAreaLearning
